import Mathlib

/-!
Verification of the evidential-combination engine of `src/app.py`
(a Bayesian evidence calculator for legal reasoning).

The Python source is shallowly embedded over `ℚ`: every numeric quantity of
the program is a rational, lists are Lean lists, the UI loops become
structural recursions, and each guarded division (`x/y if y != 0 else 0`)
becomes an `if`-guarded rational division.  Definitions follow the source
line by line; names are kept from the source where Lean allows it.
-/

namespace BayesApp

/-- The single-step Bayes update used throughout `app.py`
(`do_exact_bayes_calculation` lines 884-889, the negative-evidence loops at
lines 575-592 and 625-630, and the Monte Carlo loop at lines 793-806 all
repeat these exact three lines):
`numerator = pba * old; denominator = numerator + pbna*(1-old);`
`new = numerator/denominator if denominator != 0 else 0`. -/
def bayes_update (pba pbna old_posterior : ℚ) : ℚ :=
  let numerator := pba * old_posterior
  let denominator := numerator + pbna * (1 - old_posterior)
  if denominator ≠ 0 then numerator / denominator else 0

/-- The step-local tier label attached to each point-form row
(`do_exact_bayes_calculation` lines 894-909), selecting on the new
posterior expressed as a percentage. -/
def step_kommentar (new_post_percent : ℚ) : String :=
  if new_post_percent ≥ 95 then "Utom rimligt tvivel (>95%)"
  else if new_post_percent ≥ 80 then "Talar starkt för skuld (>80%)"
  else if new_post_percent ≥ 60 then "Tillräckliga skäl för åtal (>60%)"
  else if new_post_percent ≥ 50 then "Bevisövervikt(>50%)"
  else if new_post_percent ≥ 40 then "Sannolika skäl att misstänka (>40%)"
  else if new_post_percent ≥ 30 then "Tveksamt (>30%)"
  else if new_post_percent ≥ 20 then "Osannolikt (>20%)"
  else "Talar för oskuld (<20%)"

/-- The point-form loop of `do_exact_bayes_calculation` (lines 880-924):
`posterior_list` starts as `[prior]` and one new posterior is appended per
evidence pair `(pba, pbna)`, in input order. -/
def point_loop : List (ℚ × ℚ) → List ℚ → ℚ → List ℚ
  | [], posterior_list, _ => posterior_list
  | (pba, pbna) :: rest, posterior_list, current_posterior =>
      let new_posterior := bayes_update pba pbna current_posterior
      point_loop rest (posterior_list ++ [new_posterior]) new_posterior

/-- Point form of `do_exact_bayes_calculation` (`use_intervals=False`):
the returned `posterior_list`. -/
def do_exact_bayes_calculation_point (prior : ℚ) (bevis_data : List (ℚ × ℚ)) : List ℚ :=
  point_loop bevis_data [prior] prior

/-- The interval-form loop of `do_exact_bayes_calculation` (lines 850-878).
Each item is `(mina, maxa, minna, maxna)`.  Per item the source appends the
new min value to `min_post_list` and the new median value to
`median_post_list`; for the max chain it advances `current_max` but—as the
source literally stands (line 876 `current_max = new_max  # keep the code
as is`)—never appends to `max_post_list`. -/
def interval_loop : List (ℚ × ℚ × ℚ × ℚ) → List ℚ → List ℚ → List ℚ → ℚ → ℚ → ℚ →
    List ℚ × List ℚ × List ℚ
  | [], min_post_list, median_post_list, max_post_list, _, _, _ =>
      (min_post_list, median_post_list, max_post_list)
  | (mina, maxa, minna, maxna) :: rest, min_post_list, median_post_list, max_post_list,
      current_min, current_median, current_max =>
      let new_min := bayes_update mina minna current_min
      let pba_med := (mina + maxa) / 2
      let pbna_med := (minna + maxna) / 2
      let new_med := bayes_update pba_med pbna_med current_median
      let new_max := bayes_update maxa maxna current_max
      interval_loop rest (min_post_list ++ [new_min]) (median_post_list ++ [new_med])
        max_post_list new_min new_med new_max

/-- Interval form of `do_exact_bayes_calculation` (`use_intervals=True`):
returns `(min_post_list, median_post_list, max_post_list)`, each list
initialised to `[prior]` and the three running values to `prior`. -/
def do_exact_bayes_calculation_intervals (prior : ℚ) (bevis_data : List (ℚ × ℚ × ℚ × ℚ)) :
    List ℚ × List ℚ × List ℚ :=
  interval_loop bevis_data [prior] [prior] [prior] prior prior prior

/-- The negative-evidence loop of the interval patch (`enkel_bayes`
lines 575-592): for each counter pair `(nbga, nbgna)` the three running
values are updated independently by the same formula. -/
def interval_counter_loop : List (ℚ × ℚ) → ℚ → ℚ → ℚ → ℚ × ℚ × ℚ
  | [], current_min, current_median, current_max => (current_min, current_median, current_max)
  | (nbga, nbgna) :: rest, current_min, current_median, current_max =>
      interval_counter_loop rest (bayes_update nbga nbgna current_min)
        (bayes_update nbga nbgna current_median) (bayes_update nbga nbgna current_max)

/-- The complete interval-mode computation with counter evidence
(`enkel_bayes` lines 560-596): run `do_exact_bayes_calculation`, seed the
three running values from the last element of each returned list
(`current_min = min_post_list[-1]` etc.), run the counter loop, and append
the final running value once to each list (lines 594-596). -/
def interval_with_counter (prior : ℚ) (bevis_data : List (ℚ × ℚ × ℚ × ℚ))
    (negative_bevis_data : List (ℚ × ℚ)) : List ℚ × List ℚ × List ℚ :=
  let r := do_exact_bayes_calculation_intervals prior bevis_data
  let c := interval_counter_loop negative_bevis_data
    (r.1.getLastD 0) (r.2.1.getLastD 0) (r.2.2.getLastD 0)
  (r.1 ++ [c.1], r.2.1 ++ [c.2.1], r.2.2 ++ [c.2.2])

/-- The point-form negative-evidence loop (`enkel_bayes` lines 625-653):
each counter pair is applied by the identical update formula, first
component in the `P(B|A)` slot, second in the `P(B|¬A)` slot. -/
def counter_point_loop : List (ℚ × ℚ) → ℚ → ℚ
  | [], current_post => current_post
  | (nbga, nbgna) :: rest, current_post =>
      counter_point_loop rest (bayes_update nbga nbgna current_post)

/-- Model of Python's `random.uniform(a, b)`, which returns
`a + (b-a)*random()` for a draw `r` of `random()`. -/
def uniform (a b r : ℚ) : ℚ := a + (b - a) * r

/-- One Monte Carlo trial's main-evidence loop (`enkel_bayes`
lines 791-797): per interval item, `pba` and `pbna` are drawn uniformly
from the item's intervals (`rnd k` supplies the two `random()` draws of
item `k`) and the same update formula is applied. -/
def mc_main_loop : List (ℚ × ℚ × ℚ × ℚ) → (ℕ → ℚ × ℚ) → ℕ → ℚ → ℚ
  | [], _, _, post => post
  | (mina, maxa, minna, maxna) :: rest, rnd, k, post =>
      let pba := uniform mina maxa (rnd k).1
      let pbna := uniform minna maxna (rnd k).2
      mc_main_loop rest rnd (k + 1) (bayes_update pba pbna post)

/-- One full Monte Carlo trial (`enkel_bayes` lines 790-806): the main
loop from the prior, then the counter pairs applied without randomization. -/
def mc_sample (prior : ℚ) (bevis_data : List (ℚ × ℚ × ℚ × ℚ))
    (negative_bevis_data : List (ℚ × ℚ)) (rnd : ℕ → ℚ × ℚ) : ℚ :=
  counter_point_loop negative_bevis_data (mc_main_loop bevis_data rnd 0 prior)

/-- The Monte Carlo result array (`enkel_bayes` lines 788-807):
`n_samples = 1000` trials, each appending `post*100`; `rnd t` is the random
source seen by trial `t`. -/
def monte_carlo_results (prior : ℚ) (bevis_data : List (ℚ × ℚ × ℚ × ℚ))
    (negative_bevis_data : List (ℚ × ℚ)) (rnd : ℕ → ℕ → ℚ × ℚ) : List ℚ :=
  (List.range 1000).map fun t => mc_sample prior bevis_data negative_bevis_data (rnd t) * 100

/-- The star Bayesian-network posterior (`bayesian_network_demo`
lines 1001-1015): `top = p_s_true * Π pb_s`, `bottom = top +
p_s_false * Π pb_ns` with `p_s_false = 1 - p_s_true`, posterior
`top/bottom`, defined as `0` when `bottom == 0`. -/
def bn_posterior (p_s_true : ℚ) (bevis_bn : List (ℚ × ℚ)) : ℚ :=
  let product_if_s := bevis_bn.foldl (fun acc b => acc * b.1) 1
  let top := p_s_true * product_if_s
  let product_if_ns := bevis_bn.foldl (fun acc b => acc * b.2) 1
  let bottom := top + (1 - p_s_true) * product_if_ns
  if bottom = 0 then 0 else top / bottom

/-- Failure cases of the Dempster-Shafer path (`dempster_shafer_demo`):
a source whose guilt+innocence masses exceed 1 (lines 1036-1046), or total
conflict `K = 0` (lines 1052-1054). -/
inductive DSError where
  | invalidA : DSError
  | invalidB : DSError
  | totalConflict : DSError
deriving DecidableEq

/-- The combined Dempster-Shafer result (`dempster_shafer_demo`
lines 1056-1068): the three masses plus `conflict` and `K`. -/
structure DSResult where
  m_skyldig : ℚ
  m_oskuld : ℚ
  m_okand : ℚ
  conflict : ℚ
  K : ℚ
deriving DecidableEq

/-- The Dempster-Shafer combination path of `dempster_shafer_demo`
(lines 1033-1068): validate each source's guilt+innocence sum (strictly
greater than 1 is rejected), compute `conflict` and `K = 1 - conflict`,
reject `K == 0`, otherwise return the renormalized masses with `conflict`
and `K`. -/
def dempster_combine (bA_skuld bA_oskuld bB_skuld bB_oskuld : ℚ) : Except DSError DSResult :=
  if 1 < bA_skuld + bA_oskuld then .error .invalidA
  else
    let bA_okand := 1 - (bA_skuld + bA_oskuld)
    if 1 < bB_skuld + bB_oskuld then .error .invalidB
    else
      let bB_okand := 1 - (bB_skuld + bB_oskuld)
      let conflict := bA_skuld * bB_oskuld + bA_oskuld * bB_skuld
      let K := 1 - conflict
      if K = 0 then .error .totalConflict
      else
        let m_skyldig_num := bA_skuld * bB_skuld + bA_skuld * bB_okand + bA_okand * bB_skuld
        let m_skyldig := m_skyldig_num / K
        let m_oskuld_num := bA_oskuld * bB_oskuld + bA_oskuld * bB_okand + bA_okand * bB_oskuld
        let m_oskuld := m_oskuld_num / K
        let m_okand := 1 - (m_skyldig + m_oskuld)
        .ok ⟨m_skyldig, m_oskuld, m_okand, conflict, K⟩

/-- Spec-side single chain for counter evidence: fold the update formula
over the counter pairs from a starting value (used to compare the three
running values of `interval_counter_loop` against independent folds). -/
def counter_chain (negs : List (ℚ × ℚ)) (x : ℚ) : ℚ :=
  negs.foldl (fun p n => bayes_update n.1 n.2 p) x

/-- The final posterior of the sequential point recurrence (the running
`current_posterior` of the point loop after all items). -/
def point_final : List (ℚ × ℚ) → ℚ → ℚ
  | [], current_posterior => current_posterior
  | (pba, pbna) :: rest, current_posterior =>
      point_final rest (bayes_update pba pbna current_posterior)

end BayesApp

namespace BayesApp

/-- The interval loop never changes the max-list accumulator: whatever is
passed in as `max_post_list` is returned unchanged. -/
lemma interval_loop_max_list (bevis : List (ℚ × ℚ × ℚ × ℚ)) :
    ∀ (mn md mx : List ℚ) (c1 c2 c3 : ℚ),
      (interval_loop bevis mn md mx c1 c2 c3).2.2 = mx := by
  induction bevis with
  | nil => intro mn md mx c1 c2 c3; rfl
  | cons b rest ih =>
      intro mn md mx c1 c2 c3
      obtain ⟨mina, maxa, minna, maxna⟩ := b
      simp only [interval_loop]
      exact ih _ _ _ _ _ _

/-- The interval counter-evidence loop advances its three running values
as three independent folds of the update formula over the counter pairs. -/
lemma interval_counter_loop_eq (negs : List (ℚ × ℚ)) :
    ∀ a b c : ℚ, interval_counter_loop negs a b c =
      (counter_chain negs a, counter_chain negs b, counter_chain negs c) := by
  induction negs with
  | nil => intro a b c; rfl
  | cons n rest ih =>
      intro a b c
      obtain ⟨nbga, nbgna⟩ := n
      simp only [interval_counter_loop, counter_chain, List.foldl_cons]
      exact ih _ _ _

/-- C1: evaluation of the interval-mode computation at prior `1/2` with one
evidence item `(1/2, 1/2, 1/2, 1/2)`.  The min and median lists gain one
value per item as the claim states, but `max_post_list` is returned as
`[prior]` of length 1 (the source's interval loop advances `current_max`
yet never appends it to `max_post_list`), so the claim's "each sequence has
length n+1" fails for the max chain. -/
theorem C1_interval_max_list_never_appended :
    do_exact_bayes_calculation_intervals (1/2) [(1/2, 1/2, 1/2, 1/2)] =
      ([1/2, 1/2], [1/2, 1/2], [1/2]) ∧
    (do_exact_bayes_calculation_intervals (1/2) [(1/2, 1/2, 1/2, 1/2)]).2.2.length = 1 := by
  have h : do_exact_bayes_calculation_intervals (1/2) [(1/2, 1/2, 1/2, 1/2)] =
      (([1/2, 1/2] : List ℚ), ([1/2, 1/2] : List ℚ), ([1/2] : List ℚ)) := by
    norm_num [do_exact_bayes_calculation_intervals, interval_loop, bayes_update]
  exact ⟨h, by rw [h]; rfl⟩

/-- C2 counterexample: prior `1/2`, one interval item `(1, 1, 0, 0)` and
two counter pairs `(1/2, 1/2)`.  The claim implies (a) each chain gains one
value per counter item, so the min list would have length `2 + 2 = 4`, and
(b) the max chain's old-posterior seed is its posterior after the main
item, which is `bayes_update 1 0 (1/2) = 1`, so the max chain would end at
`1`.  The code's min list has length 3 (one single append) and its max
list ends at `1/2` (seeded from the prior, the only element of the
never-appended max list), while the claim's own update rule from seed `1`
yields `1 ≠ 1/2`. -/
theorem C2_counterexample :
    (interval_with_counter (1/2) [(1, 1, 0, 0)] [(1/2, 1/2), (1/2, 1/2)]).1.length = 3 ∧
    (interval_with_counter (1/2) [(1, 1, 0, 0)] [(1/2, 1/2), (1/2, 1/2)]).2.2 = [1/2, 1/2] ∧
    bayes_update 1 0 (1/2) = 1 ∧
    bayes_update (1/2) (1/2) (bayes_update (1/2) (1/2) 1) = 1 ∧
    ((1/2 : ℚ) ≠ 1) := by
  have h : interval_with_counter (1/2) [(1, 1, 0, 0)] [(1/2, 1/2), (1/2, 1/2)] =
      (([1/2, 1, 1] : List ℚ), ([1/2, 1, 1] : List ℚ), ([1/2, 1/2] : List ℚ)) := by
    norm_num [interval_with_counter, do_exact_bayes_calculation_intervals, interval_loop,
      interval_counter_loop, bayes_update]
  refine ⟨by rw [h]; rfl, by rw [h], ?_, ?_, by norm_num⟩
  · norm_num [bayes_update]
  · norm_num [bayes_update]

/-- C2 (amended): the interval counter-evidence continuation updates three
running values — one per chain, each advanced independently through every
counter pair by the identical update formula (first component in the
`P(B|guilty)` slot, second in the `P(B|innocent)` slot) — but each is
seeded from the last element of the corresponding returned list, which for
the max chain is the prior (the main computation never appends to the max
list), and only the final value is appended, a single append per chain
regardless of how many counter-evidence items there are. -/
theorem C2_interval_counter_characterisation (prior : ℚ)
    (bevis_data : List (ℚ × ℚ × ℚ × ℚ)) (negs : List (ℚ × ℚ)) :
    interval_with_counter prior bevis_data negs =
      ((do_exact_bayes_calculation_intervals prior bevis_data).1 ++
          [counter_chain negs
            ((do_exact_bayes_calculation_intervals prior bevis_data).1.getLastD 0)],
        (do_exact_bayes_calculation_intervals prior bevis_data).2.1 ++
          [counter_chain negs
            ((do_exact_bayes_calculation_intervals prior bevis_data).2.1.getLastD 0)],
        [prior, counter_chain negs prior]) := by
  have hmax : (do_exact_bayes_calculation_intervals prior bevis_data).2.2 = [prior] :=
    interval_loop_max_list bevis_data [prior] [prior] [prior] prior prior prior
  simp only [interval_with_counter, interval_counter_loop_eq, hmax]
  simp

/-- C9 (amended): with prior 1% and one evidence item
`P(B|A)=95%`, `P(B|¬A)=0.1%`, the point-form trace is
`[1/100, 950/1049]`, i.e. the posterior is exactly `950/1049 ≈ 90.5624%`
(so approximately 90.56%, not 90.59%), and the step's tier label is the
`>= 80` tier "Talar starkt för skuld (>80%)". -/
theorem C9_lambertz_scenario :
    do_exact_bayes_calculation_point (1/100) [(19/20, 1/1000)] = [1/100, 950/1049] ∧
    |(950/1049 : ℚ) * 100 - 9056/100| < 1/200 ∧
    step_kommentar ((950/1049 : ℚ) * 100) = "Talar starkt för skuld (>80%)" := by
  refine ⟨?_, ?_, ?_⟩
  · norm_num [do_exact_bayes_calculation_point, point_loop, bayes_update]
  · rw [abs_sub_lt_iff]; norm_num
  · norm_num [step_kommentar]

/-- C9 counterexample: at the claim's own input (prior 1%, one item
95% / 0.1%) the point posterior is exactly `950/1049`, whose percentage
`95000/1049 ≈ 90.5624` is NOT approximately 90.59 (it differs from 90.59
by more than half a unit in the last stated decimal place), refuting the
claim's "posterior ≈ 90.59%". -/
theorem C9_counterexample_not_9059 :
    do_exact_bayes_calculation_point (1/100) [(19/20, 1/1000)] = [1/100, 950/1049] ∧
    ¬ |(950/1049 : ℚ) * 100 - 9059/100| < 1/200 := by
  refine ⟨?_, ?_⟩
  · norm_num [do_exact_bayes_calculation_point, point_loop, bayes_update]
  · rw [abs_sub_lt_iff]; norm_num

/-- C10: zero is absorbing for the update recurrence: a single update from
posterior 0 returns 0 for every pair, and consequently the point-form
evidence loop only appends zeros from a zero running posterior, the
counter-evidence loop returns 0 from 0, and every Monte Carlo trial's main
loop returns 0 from 0 regardless of the random draws. -/
theorem C10_zero_posterior_absorbing :
    (∀ pba pbna : ℚ, bayes_update pba pbna 0 = 0) ∧
    (∀ (bevis : List (ℚ × ℚ)) (posts : List ℚ),
        point_loop bevis posts 0 = posts ++ List.replicate bevis.length 0) ∧
    (∀ negs : List (ℚ × ℚ), counter_point_loop negs 0 = 0) ∧
    (∀ (bevis : List (ℚ × ℚ × ℚ × ℚ)) (rnd : ℕ → ℚ × ℚ) (k : ℕ),
        mc_main_loop bevis rnd k 0 = 0) := by
  have hz : ∀ pba pbna : ℚ, bayes_update pba pbna 0 = 0 := by
    intro pba pbna
    simp only [bayes_update]
    split_ifs with h
    · simp
    · rfl
  refine ⟨hz, ?_, ?_, ?_⟩
  · intro bevis
    induction bevis with
    | nil => intro posts; simp [point_loop]
    | cons b rest ih =>
        intro posts
        obtain ⟨pba, pbna⟩ := b
        simp only [point_loop, hz, ih, List.length_cons, List.replicate_succ]
        simp
  · intro negs
    induction negs with
    | nil => rfl
    | cons n rest ih =>
        obtain ⟨nbga, nbgna⟩ := n
        simp only [counter_point_loop, hz, ih]
  · intro bevis
    induction bevis with
    | nil => intro rnd k; rfl
    | cons b rest ih =>
        intro rnd k
        obtain ⟨mina, maxa, minna, maxna⟩ := b
        simp only [mc_main_loop, hz, ih]

/-- C4: the star Bayesian-network posterior with a single node equals the
sequential point Bayes update with the same prior and pair, for all
rational inputs — including the zero-denominator case, where both sides
are defined as 0. -/
theorem C4_bn_single_node_eq_point_update (p pba pbna : ℚ) :
    bn_posterior p [(pba, pbna)] = bayes_update pba pbna p := by
  simp only [bn_posterior, bayes_update, List.foldl_cons, List.foldl_nil]
  have h2 : p * (1 * pba) + (1 - p) * (1 * pbna) = pba * p + pbna * (1 - p) := by ring
  have h1 : p * (1 * pba) = pba * p := by ring
  rw [h2, h1]
  by_cases h : pba * p + pbna * (1 - p) = 0
  · simp [h]
  · simp [h]

/-- C7: every guarded division in the engine returns 0 on a zero
denominator: the update kernel `bayes_update` (used by the point loop, the
three interval chains, both counter-evidence loops and the Monte Carlo
recurrence) returns 0 whenever its denominator is 0, and the star-network
posterior returns 0 whenever its `bottom` is 0.  All embedded functions
are total, so no numeric input can fault. -/
theorem C7_division_guards :
    (∀ pba pbna post : ℚ,
        pba * post + pbna * (1 - post) = 0 → bayes_update pba pbna post = 0) ∧
    (∀ (p_s_true : ℚ) (bevis_bn : List (ℚ × ℚ)),
        p_s_true * bevis_bn.foldl (fun acc b => acc * b.1) 1 +
          (1 - p_s_true) * bevis_bn.foldl (fun acc b => acc * b.2) 1 = 0 →
        bn_posterior p_s_true bevis_bn = 0) := by
  constructor
  · intro pba pbna post h
    simp only [bayes_update]
    rw [if_neg (fun hn => hn h)]
  · intro p bs h
    simp only [bn_posterior]
    rw [if_pos h]

/-- Witness for C7: concrete zero-denominator inputs, with the hypotheses
discharged by evaluation. -/
theorem C7_division_guards_witness :
    ((0 : ℚ) * (1/2) + 0 * (1 - 1/2) = 0 ∧ bayes_update 0 0 (1/2) = 0) ∧
    bn_posterior 0 [(1, 0)] = 0 := by
  refine ⟨⟨by norm_num, C7_division_guards.1 0 0 (1/2) (by norm_num)⟩, ?_⟩
  exact C7_division_guards.2 0 [(1, 0)] (by norm_num [List.foldl_cons, List.foldl_nil])

/-- C3: for a prior and an evidence pair in `[0,1]` with nonzero
denominator, the point update lands in `[0,1]`; and when the two evidence
probabilities coincide the update returns the prior unchanged. -/
theorem C3_point_update_range_and_uninformative
    (p pba pbna : ℚ) (hp0 : 0 ≤ p) (hp1 : p ≤ 1)
    (hg0 : 0 ≤ pba) (_hg1 : pba ≤ 1) (hi0 : 0 ≤ pbna) (hi1 : pbna ≤ 1)
    (hden : pba * p + pbna * (1 - p) ≠ 0) :
    (0 ≤ bayes_update pba pbna p ∧ bayes_update pba pbna p ≤ 1) ∧
      (pba = pbna → bayes_update pba pbna p = p) := by
  have hnum : 0 ≤ pba * p := mul_nonneg hg0 hp0
  have hden0 : 0 ≤ pba * p + pbna * (1 - p) :=
    add_nonneg hnum (mul_nonneg hi0 (by linarith))
  have hpos : 0 < pba * p + pbna * (1 - p) := lt_of_le_of_ne hden0 (Ne.symm hden)
  simp only [bayes_update]
  rw [if_pos hden]
  refine ⟨⟨div_nonneg hnum hden0, ?_⟩, ?_⟩
  · rw [div_le_one hpos]
    have : 0 ≤ pbna * (1 - p) := mul_nonneg hi0 (by linarith)
    linarith
  · intro he
    subst he
    have hsum : pba * p + pba * (1 - p) = pba := by ring
    rw [hsum] at hden ⊢
    rw [mul_comm, mul_div_assoc, div_self hden, mul_one]

/-- Witness for C3: the theorem applied at `p = 1/2`,
`(pba, pbna) = (1/2, 1/2)`, where the denominator is `1/2 ≠ 0`. -/
theorem C3_point_update_witness :
    ((1/2 : ℚ) * (1/2) + (1/2) * (1 - 1/2) ≠ 0) ∧
    ((0 ≤ bayes_update (1/2) (1/2) (1/2) ∧ bayes_update (1/2) (1/2) (1/2) ≤ 1) ∧
      ((1/2 : ℚ) = 1/2 → bayes_update (1/2) (1/2) (1/2) = 1/2)) :=
  ⟨by norm_num,
    C3_point_update_range_and_uninformative (1/2) (1/2) (1/2)
      (by norm_num) (by norm_num) (by norm_num) (by norm_num) (by norm_num) (by norm_num)
      (by norm_num)⟩

/-- The last element of the point-form trace is the running posterior
after all evidence items. -/
lemma getLastD_point_loop (bevis : List (ℚ × ℚ)) :
    ∀ (posts : List ℚ) (cur : ℚ),
      (point_loop bevis (posts ++ [cur]) cur).getLastD 0 = point_final bevis cur := by
  induction bevis with
  | nil =>
      intro posts cur
      simp [point_loop, point_final, List.getLastD_concat]
  | cons b rest ih =>
      intro posts cur
      obtain ⟨pba, pbna⟩ := b
      simp only [point_loop, point_final]
      exact ih (posts ++ [cur]) (bayes_update pba pbna cur)

/-- When every interval item is degenerate (`min = max` on both sides),
every uniform draw collapses to the fixed endpoint and a Monte Carlo
trial's main loop computes exactly the sequential point recurrence over
the fixed pairs, whatever the random source returns. -/
lemma mc_main_eq_point_final (bevis : List (ℚ × ℚ × ℚ × ℚ)) :
    (∀ it ∈ bevis, it.1 = it.2.1 ∧ it.2.2.1 = it.2.2.2) →
    ∀ (rnd : ℕ → ℚ × ℚ) (k : ℕ) (post : ℚ),
      mc_main_loop bevis rnd k post =
        point_final (bevis.map fun it => (it.1, it.2.2.1)) post := by
  induction bevis with
  | nil => intro _ rnd k post; rfl
  | cons b rest ih =>
      intro hdeg rnd k post
      obtain ⟨mina, maxa, minna, maxna⟩ := b
      obtain ⟨h1, h2⟩ := hdeg _ (List.mem_cons_self _ _)
      simp only at h1 h2
      simp only [mc_main_loop, List.map_cons, point_final]
      have hu1 : uniform mina maxa (rnd k).1 = mina := by
        rw [← h1]; simp [uniform]
      have hu2 : uniform minna maxna (rnd k).2 = minna := by
        rw [← h2]; simp [uniform]
      rw [hu1, hu2]
      exact ih (fun it hit => hdeg it (List.mem_cons_of_mem _ hit)) rnd (k + 1)
        (bayes_update mina minna post)

/-- C8: when every interval evidence item is degenerate (`min_g = max_g`
and `min_i = max_i`), every one of the 1000 Monte Carlo samples equals —
exactly, since the embedding computes in `ℚ` — 100 times the counter-
evidence continuation of the exact sequential point-update result (the
last entry of `do_exact_bayes_calculation`'s point trace over the fixed
pairs, starting from the same prior), for every behaviour of the random
source; with no counter evidence the continuation is the identity, so each
sample is exactly the exact point result as a percentage. -/
theorem C8_monte_carlo_degenerate (prior : ℚ) (bevis_data : List (ℚ × ℚ × ℚ × ℚ))
    (negs : List (ℚ × ℚ))
    (hdeg : ∀ it ∈ bevis_data, it.1 = it.2.1 ∧ it.2.2.1 = it.2.2.2) :
    ∀ (rnd : ℕ → ℕ → ℚ × ℚ) (x : ℚ), x ∈ monte_carlo_results prior bevis_data negs rnd →
      x = counter_point_loop negs
            ((do_exact_bayes_calculation_point prior
                (bevis_data.map fun it => (it.1, it.2.2.1))).getLastD 0) * 100 := by
  intro rnd x hx
  obtain ⟨t, _, rfl⟩ := List.mem_map.1 hx
  have hlast : (do_exact_bayes_calculation_point prior
      (bevis_data.map fun it => (it.1, it.2.2.1))).getLastD 0 =
      point_final (bevis_data.map fun it => (it.1, it.2.2.1)) prior := by
    have h := getLastD_point_loop (bevis_data.map fun it => (it.1, it.2.2.1)) [] prior
    simpa [do_exact_bayes_calculation_point] using h
  rw [hlast]
  unfold mc_sample
  rw [mc_main_eq_point_final bevis_data hdeg (rnd t) 0 prior]

/-- Witness for C8: one degenerate item `(1/2, 1/2, 1/3, 1/3)`, no
counter evidence, and an arbitrary fixed random source: the sample equals
100 times the exact point result over the fixed pair `(1/2, 1/3)`. -/
theorem C8_monte_carlo_degenerate_witness :
    (∀ it ∈ [((1 : ℚ)/2, (1 : ℚ)/2, (1 : ℚ)/3, (1 : ℚ)/3)],
        it.1 = it.2.1 ∧ it.2.2.1 = it.2.2.2) ∧
    mc_sample (1/2) [(1/2, 1/2, 1/3, 1/3)] [] (fun _ => (1/5, 2/5)) * 100 =
      counter_point_loop []
        ((do_exact_bayes_calculation_point (1/2)
            ([((1 : ℚ)/2, (1 : ℚ)/2, (1 : ℚ)/3, (1 : ℚ)/3)].map
              fun it => (it.1, it.2.2.1))).getLastD 0) * 100 := by
  have hdeg : ∀ it ∈ [((1 : ℚ)/2, (1 : ℚ)/2, (1 : ℚ)/3, (1 : ℚ)/3)],
      it.1 = it.2.1 ∧ it.2.2.1 = it.2.2.2 := by
    intro it hit
    simp only [List.mem_singleton] at hit
    subst hit
    exact ⟨rfl, rfl⟩
  have h0 : (0 : ℕ) ∈ List.range 1000 := List.mem_range.mpr (by norm_num)
  have hmem : mc_sample (1/2) [((1 : ℚ)/2, (1 : ℚ)/2, (1 : ℚ)/3, (1 : ℚ)/3)] []
      (fun _ => ((1 : ℚ)/5, (2 : ℚ)/5)) * 100 ∈
      monte_carlo_results (1/2) [((1 : ℚ)/2, (1 : ℚ)/2, (1 : ℚ)/3, (1 : ℚ)/3)] []
        (fun _ _ => ((1 : ℚ)/5, (2 : ℚ)/5)) := by
    unfold monte_carlo_results
    exact List.mem_map_of_mem _ h0
  exact ⟨hdeg, C8_monte_carlo_degenerate _ _ _ hdeg _ _ hmem⟩

/-- C5: Dempster combination is commutative for valid mass assignments
(guilt + innocence of each source at most 1) with nonzero `K`: swapping
the two sources yields the same masses, the same conflict and the same
`K`. -/
theorem C5_dempster_commutative (bA_skuld bA_oskuld bB_skuld bB_oskuld : ℚ)
    (hA : bA_skuld + bA_oskuld ≤ 1) (hB : bB_skuld + bB_oskuld ≤ 1)
    (hK : 1 - (bA_skuld * bB_oskuld + bA_oskuld * bB_skuld) ≠ 0) :
    dempster_combine bA_skuld bA_oskuld bB_skuld bB_oskuld =
      dempster_combine bB_skuld bB_oskuld bA_skuld bA_oskuld := by
  have hA' : ¬ (1 < bA_skuld + bA_oskuld) := not_lt.mpr hA
  have hB' : ¬ (1 < bB_skuld + bB_oskuld) := not_lt.mpr hB
  have hswap : 1 - (bB_skuld * bA_oskuld + bB_oskuld * bA_skuld) =
      1 - (bA_skuld * bB_oskuld + bA_oskuld * bB_skuld) := by ring
  simp only [dempster_combine, if_neg hA', if_neg hB', hswap, if_neg hK]
  simp only [Except.ok.injEq, DSResult.mk.injEq]
  refine ⟨by ring_nf, by ring_nf, by ring_nf, by ring_nf, by ring_nf⟩

/-- Witness for C5: the spec's own scenario, `A = (0.5, 0.2)` and
`B = (0.4, 0.3)`, where both mass sums are at most 1 and
`K = 0.77 ≠ 0`. -/
theorem C5_dempster_commutative_witness :
    ((1 : ℚ)/2 + 1/5 ≤ 1) ∧ ((2 : ℚ)/5 + 3/10 ≤ 1) ∧
    (1 - ((1 : ℚ)/2 * (3/10) + 1/5 * (2/5)) ≠ 0) ∧
    dempster_combine (1/2) (1/5) (2/5) (3/10) = dempster_combine (2/5) (3/10) (1/2) (1/5) :=
  ⟨by norm_num, by norm_num, by norm_num,
    C5_dempster_commutative (1/2) (1/5) (2/5) (3/10) (by norm_num) (by norm_num) (by norm_num)⟩

/-- C6: the Dempster-Shafer path fails (returns an error, never a numeric
result) exactly when a source's guilt and innocence masses sum to more
than 1 or when `K = 1 - conflict` is 0; on all other inputs it returns the
combined masses together with `conflict` and `K`. -/
theorem C6_dempster_error_iff (bA_skuld bA_oskuld bB_skuld bB_oskuld : ℚ) :
    ((∃ e, dempster_combine bA_skuld bA_oskuld bB_skuld bB_oskuld = .error e) ↔
      (1 < bA_skuld + bA_oskuld ∨ 1 < bB_skuld + bB_oskuld ∨
        1 - (bA_skuld * bB_oskuld + bA_oskuld * bB_skuld) = 0)) ∧
    (bA_skuld + bA_oskuld ≤ 1 → bB_skuld + bB_oskuld ≤ 1 →
      1 - (bA_skuld * bB_oskuld + bA_oskuld * bB_skuld) ≠ 0 →
      dempster_combine bA_skuld bA_oskuld bB_skuld bB_oskuld = .ok
        { m_skyldig := (bA_skuld * bB_skuld + bA_skuld * (1 - (bB_skuld + bB_oskuld)) +
              (1 - (bA_skuld + bA_oskuld)) * bB_skuld) /
              (1 - (bA_skuld * bB_oskuld + bA_oskuld * bB_skuld)),
          m_oskuld := (bA_oskuld * bB_oskuld + bA_oskuld * (1 - (bB_skuld + bB_oskuld)) +
              (1 - (bA_skuld + bA_oskuld)) * bB_oskuld) /
              (1 - (bA_skuld * bB_oskuld + bA_oskuld * bB_skuld)),
          m_okand := 1 -
              ((bA_skuld * bB_skuld + bA_skuld * (1 - (bB_skuld + bB_oskuld)) +
                  (1 - (bA_skuld + bA_oskuld)) * bB_skuld) /
                  (1 - (bA_skuld * bB_oskuld + bA_oskuld * bB_skuld)) +
                (bA_oskuld * bB_oskuld + bA_oskuld * (1 - (bB_skuld + bB_oskuld)) +
                  (1 - (bA_skuld + bA_oskuld)) * bB_oskuld) /
                  (1 - (bA_skuld * bB_oskuld + bA_oskuld * bB_skuld))),
          conflict := bA_skuld * bB_oskuld + bA_oskuld * bB_skuld,
          K := 1 - (bA_skuld * bB_oskuld + bA_oskuld * bB_skuld) }) := by
  constructor
  · by_cases h1 : 1 < bA_skuld + bA_oskuld
    · simp [dempster_combine, h1]
    · by_cases h2 : 1 < bB_skuld + bB_oskuld
      · simp [dempster_combine, h1, h2]
      · by_cases h3 : 1 - (bA_skuld * bB_oskuld + bA_oskuld * bB_skuld) = 0
        · simp [dempster_combine, h1, h2, h3]
        · simp [dempster_combine, h1, h2, h3]
  · intro hA hB hK
    simp [dempster_combine, not_lt.mpr hA, not_lt.mpr hB, hK]

/-- Witness for C6: the spec's Dempster scenario `A = (0.5, 0.2)`,
`B = (0.4, 0.3)` — no error condition holds, and the combinator returns
`m(guilt) = 47/77`, `m(innocence) = 21/77`, `m(unknown) = 9/77`,
`conflict = 0.23`, `K = 0.77`. -/
theorem C6_dempster_witness :
    dempster_combine (1/2) (1/5) (2/5) (3/10) =
      .ok ⟨47/77, 21/77, 9/77, 23/100, 77/100⟩ := by
  have h := (C6_dempster_error_iff (1/2) (1/5) (2/5) (3/10)).2
    (by norm_num) (by norm_num) (by norm_num)
  rw [h]
  simp only [Except.ok.injEq, DSResult.mk.injEq]
  norm_num

end BayesApp
